import Mathlib

/-!
Verification development for the Aizu client-side analytics SDK
(repository AizuGit/cdn).

The repository ships its public declarations (src/src/index.ts), a README,
and the jest test-suite (src/tests/yorin.test.ts); the implementation
modules they refer to (src/aizu.ts, src/types.ts, src/utils.ts) are not
present. The pipeline below is therefore modelled from the specification:
identity/session lifecycle, input sanitization, batching/queueing, and
network delivery with failure classification and retry. Strings are Lean
`String`s; machine time is `Nat` milliseconds; the network is an explicit
sequence of per-attempt responses; "the call throws" is modelled with
`Except`, and an operation that must never throw is a total function.
-/

namespace Aizu

/-- Modelled from the spec: the fixed enumeration of event types
{PAGEVIEW, CUSTOM, IDENTIFY, GROUP_IDENTIFY} (src/types.ts is missing;
`EVENT_TYPES` is only imported by the tests). -/
inductive EventType
  | pageview
  | custom
  | identify
  | groupIdentify
deriving DecidableEq, Repr

/-- Modelled from the spec: property values are a closed tagged union of
JSON-representable scalar kinds (string, number, boolean, null); nested
values are out of scope for the claims checked here. -/
inductive PropValue
  | str (s : String)
  | num (n : Int)
  | bool (b : Bool)
  | null
deriving DecidableEq, Repr

/-- Modelled from the spec: an Event carries its type, the caller's
publishable key, the current URL (`href`), an identity snapshot and the
bounded properties map; `properties` is an ordered association list so that
insertion order is visible to the sanitizer's key cap (src/aizu.ts is
missing). -/
structure AizuEvent where
  type : EventType
  apiKey : String
  href : String
  anonymousId : String
  sessionId : String
  properties : List (String × PropValue)
deriving DecidableEq, Repr

/-! ## Delivery Engine -/

/-- Modelled from the spec: the classification of one network attempt.
`clientError` covers HTTP 4xx responses and locally-detected domain/origin
validation failures (both terminal); `serverError` covers HTTP 5xx,
network-level failures and timeouts (retryable). -/
inductive NetResp
  | success
  | clientError
  | serverError
deriving DecidableEq, Repr

/-- Modelled from the spec: the terminal outcome the Delivery Engine
reports upward; it never raises to the caller of the public facade. -/
inductive Outcome
  | success
  | exhausted
deriving DecidableEq, Repr

/-- Modelled from the spec: the retry loop of `send`. The network is the
function `responses` from attempt index to that attempt's classified
result. The engine issues attempt `attempt`; on success or on a terminal
client error it stops, otherwise it retries while `retriesLeft` allows.
Returns the outcome together with the number of network attempts made.
Backoff delays are non-normative and not modelled. -/
def sendWithRetries (responses : Nat → NetResp) : Nat → Nat → Outcome × Nat
  | attempt, retriesLeft =>
    match responses attempt with
    | .success => (.success, 1)
    | .clientError => (.exhausted, 1)
    | .serverError =>
      match retriesLeft with
      | 0 => (.exhausted, 1)
      | r + 1 =>
        let rest := sendWithRetries responses (attempt + 1) r
        (rest.1, rest.2 + 1)

/-- Modelled from the spec: up to 3 retries, hence 4 attempts total. -/
def maxRetries : Nat := 3

/-- Modelled from the spec: `send(batch)` starts at attempt 0 with the
full retry budget. The batch body itself does not influence the retry
control flow, so it is not a parameter here. -/
def send (responses : Nat → NetResp) : Outcome × Nat :=
  sendWithRetries responses 0 maxRetries

theorem sendWithRetries_allServer (responses : Nat → NetResp)
    (h : ∀ i, responses i = NetResp.serverError) :
    ∀ r a, sendWithRetries responses a r = (Outcome.exhausted, r + 1) := by
  intro r
  induction r with
  | zero => intro a; simp [sendWithRetries, h a]
  | succ n ih => intro a; simp [sendWithRetries, h a, ih (a + 1)]

/-- C1: on a network that fails every attempt with a retryable
server/transient error, `send` makes exactly 4 attempts (initial + 3
retries) and reports `exhausted`; if the first two attempts fail
transiently and the third succeeds, exactly 3 attempts are made. In both
cases `send` is a total function into `Outcome × Nat`, so the tracking
call that triggered delivery resolves without throwing. -/
theorem send_retry_policy (responses : Nat → NetResp) :
    ((∀ i, responses i = NetResp.serverError) →
      send responses = (Outcome.exhausted, 4)) ∧
    (responses 0 = NetResp.serverError →
      responses 1 = NetResp.serverError →
      responses 2 = NetResp.success →
      send responses = (Outcome.success, 3)) := by
  constructor
  · intro h
    exact sendWithRetries_allServer responses h 3 0
  · intro h0 h1 h2
    simp [send, maxRetries, sendWithRetries, h0, h1, h2]

theorem send_retry_policy_witness :
    send (fun _ => NetResp.serverError) = (Outcome.exhausted, 4) ∧
    send (fun i => if i < 2 then NetResp.serverError else NetResp.success) =
      (Outcome.success, 3) :=
  ⟨(send_retry_policy (fun _ => NetResp.serverError)).1 (fun _ => rfl),
   (send_retry_policy
      (fun i => if i < 2 then NetResp.serverError else NetResp.success)).2
     rfl rfl rfl⟩

/-- C2: a first attempt that fails with a client error (HTTP 4xx or a
locally-detected domain/origin validation failure, both classified
`clientError`) is terminal: `send` makes exactly 1 network attempt and
reports `exhausted`. -/
theorem send_client_error_terminal (responses : Nat → NetResp)
    (h : responses 0 = NetResp.clientError) :
    send responses = (Outcome.exhausted, 1) := by
  simp [send, maxRetries, sendWithRetries, h]

theorem send_client_error_terminal_witness :
    send (fun _ => NetResp.clientError) = (Outcome.exhausted, 1) :=
  send_client_error_terminal (fun _ => NetResp.clientError) rfl

/-! ## Sanitizer -/

/-- Modelled from the spec: truncation of a string to at most `n`
characters (the sanitizer truncates string values exceeding 1000
characters and URL-valued fields exceeding 2048 characters). -/
def truncStr (n : Nat) (s : String) : String :=
  String.mk (s.data.take n)

/-- Modelled from the spec: a string property value is truncated to 1000
characters; non-string scalar values pass through unchanged. -/
def truncVal : PropValue → PropValue
  | .str s => .str (truncStr 1000 s)
  | v => v

/-- Modelled from the spec: `sanitize` caps the user-supplied properties
at 100 keys, dropping keys beyond the cap silently by insertion order, and
truncates every string value to 1000 characters. -/
def sanitizeProps (raw : List (String × PropValue)) :
    List (String × PropValue) :=
  (raw.take 100).map (fun kv => (kv.1, truncVal kv.2))

/-- Modelled from the spec: building the sanitized custom event for
`track(eventName, properties)`. The required key `event_name` is always
injected and does not count against the 100-key cap; the event URL is
truncated to 2048 characters. -/
def mkCustomEvent (apiKey name url anonId sessId : String)
    (raw : List (String × PropValue)) : AizuEvent :=
  { type := .custom
    apiKey := apiKey
    href := truncStr 2048 url
    anonymousId := anonId
    sessionId := sessId
    properties := ("event_name", truncVal (.str name)) :: sanitizeProps raw }

theorem length_truncStr (n : Nat) (s : String) :
    (truncStr n s).length = min n s.length := by
  show (s.data.take n).length = min n s.data.length
  exact List.length_take n s.data

theorem truncVal_str_length_le (v : PropValue) (s : String)
    (h : truncVal v = .str s) : s.length ≤ 1000 := by
  cases v with
  | str t =>
    simp [truncVal] at h
    subst h
    simp [length_truncStr]
  | num n => simp [truncVal] at h
  | bool b => simp [truncVal] at h
  | null => simp [truncVal] at h

/-- C6: sanitization bounds. For every raw properties list the custom
event keeps at most 100 user-supplied keys plus `event_name` (at most 101
entries), key order is insertion order with keys beyond the cap dropped;
every string property value of the sanitized event has length at most
1000 and a raw string value longer than 1000 characters is kept (within
the cap) truncated to exactly 1000 characters; an event URL longer than
2048 characters is truncated to exactly 2048. -/
theorem sanitize_bounds (apiKey name url anonId sessId : String)
    (raw : List (String × PropValue)) :
    (mkCustomEvent apiKey name url anonId sessId raw).properties.length ≤ 101 ∧
    (mkCustomEvent apiKey name url anonId sessId raw).properties.map Prod.fst =
      "event_name" :: (raw.take 100).map Prod.fst ∧
    (∀ p ∈ (mkCustomEvent apiKey name url anonId sessId raw).properties,
      ∀ s, p.2 = PropValue.str s → s.length ≤ 1000) ∧
    (∀ k s, (k, PropValue.str s) ∈ raw.take 100 → 1000 < s.length →
      (k, PropValue.str (truncStr 1000 s)) ∈
        (mkCustomEvent apiKey name url anonId sessId raw).properties ∧
      (truncStr 1000 s).length = 1000) ∧
    (2048 < url.length →
      (mkCustomEvent apiKey name url anonId sessId raw).href.length = 2048) := by
  refine ⟨?_, ?_, ?_, ?_, ?_⟩
  · simp only [mkCustomEvent, sanitizeProps, List.length_cons, List.length_map]
    have := List.length_take_le 100 raw
    omega
  · simp only [mkCustomEvent, sanitizeProps, List.map_cons, List.map_map]
    exact congrArg ("event_name" :: ·) (List.map_congr_left fun kv _ => rfl)
  · intro p hp s hs
    simp only [mkCustomEvent, List.mem_cons] at hp
    rcases hp with hp | hp
    · subst hp
      exact truncVal_str_length_le (PropValue.str name) s hs
    · simp only [sanitizeProps, List.mem_map] at hp
      obtain ⟨kv, _, hkv⟩ := hp
      subst hkv
      exact truncVal_str_length_le kv.2 s hs
  · intro k s hmem hlen
    constructor
    · simp only [mkCustomEvent, List.mem_cons]
      right
      simp only [sanitizeProps, List.mem_map]
      exact ⟨(k, PropValue.str s), hmem, by simp [truncVal]⟩
    · simp [length_truncStr]
      omega
  · intro h
    simp [mkCustomEvent, length_truncStr]
    omega

theorem sanitize_bounds_witness :
    ((mkCustomEvent "pk_test_123456789" "test_event"
        (String.mk (List.replicate 3000 'a')) "a_anon" "s_sess"
        [("long_value", PropValue.str (String.mk (List.replicate 1500 'x')))]
      ).properties.length ≤ 101) ∧
    (("long_value",
        PropValue.str (truncStr 1000 (String.mk (List.replicate 1500 'x')))) ∈
      (mkCustomEvent "pk_test_123456789" "test_event"
        (String.mk (List.replicate 3000 'a')) "a_anon" "s_sess"
        [("long_value", PropValue.str (String.mk (List.replicate 1500 'x')))]
      ).properties ∧
      (truncStr 1000 (String.mk (List.replicate 1500 'x'))).length = 1000) ∧
    ((mkCustomEvent "pk_test_123456789" "test_event"
        (String.mk (List.replicate 3000 'a')) "a_anon" "s_sess"
        [("long_value", PropValue.str (String.mk (List.replicate 1500 'x')))]
      ).href.length = 2048) := by
  have h := sanitize_bounds "pk_test_123456789" "test_event"
    (String.mk (List.replicate 3000 'a')) "a_anon" "s_sess"
    [("long_value", PropValue.str (String.mk (List.replicate 1500 'x')))]
  refine ⟨h.1, ?_, ?_⟩
  · refine h.2.2.2.1 "long_value" (String.mk (List.replicate 1500 'x'))
      (by simp) ?_
    show (1000:Nat) < (List.replicate 1500 'x').length
    rw [List.length_replicate]
    omega
  · refine h.2.2.2.2 ?_
    show (2048:Nat) < (List.replicate 3000 'a').length
    rw [List.length_replicate]
    omega

/-! ## Batch Queue -/

/-- Modelled from the spec: the hard cap of 1000 events per delivered
batch. -/
def batchCap : Nat := 1000

/-- Modelled from the spec: `flush()` splits the drained queue into
consecutive sub-batches of at most 1000 events each, preserving order. -/
def splitBatches : List AizuEvent → List (List AizuEvent)
  | [] => []
  | e :: rest =>
    (e :: rest).take batchCap :: splitBatches ((e :: rest).drop batchCap)
termination_by l => l.length
decreasing_by
  simp only [List.length_drop, List.length_cons, batchCap]
  omega

/-- Modelled from the spec: the Batch Queue owns the ordered pending
events; `sent` records, in order, the bodies of the network calls already
issued (one entry per network call), for observability in the theorems. -/
structure BatchQueueState where
  pending : List AizuEvent
  sent : List (List AizuEvent)
deriving DecidableEq, Repr

/-- Modelled from the spec: the queue of a freshly constructed pipeline is
empty and nothing has been sent. -/
def initQueue : BatchQueueState := ⟨[], []⟩

/-- Modelled from the spec: `size()` / `getBatchSize()` returns the
current pending count. -/
def getBatchSize (s : BatchQueueState) : Nat := s.pending.length

/-- Modelled from the spec: `enqueue(event)` with batching enabled appends
to the tail and, when the queue length reaches `batchSize`, immediately
flushes exactly `batchSize` events in submission order, leaving the
remaining events queued. -/
def enqueue (batchSize : Nat) (e : AizuEvent) (s : BatchQueueState) :
    BatchQueueState :=
  let q := s.pending ++ [e]
  if batchSize ≤ q.length then
    { pending := q.drop batchSize, sent := s.sent ++ [q.take batchSize] }
  else
    { pending := q, sent := s.sent }

/-- Modelled from the spec: `track(eventName, properties)` sanitizes the
call into a custom event and enqueues it (batching enabled). -/
def track (batchSize : Nat) (apiKey name url anonId sessId : String)
    (raw : List (String × PropValue)) (s : BatchQueueState) :
    BatchQueueState :=
  enqueue batchSize (mkCustomEvent apiKey name url anonId sessId raw) s

/-- Modelled from the spec: `trackBatch(events)` bulk-enqueues pre-built
events and flushes: the whole queue is drained and split into sub-batches
of at most 1000 events, each submitted as one network call. -/
def trackBatch (events : List AizuEvent) (s : BatchQueueState) :
    BatchQueueState :=
  { pending := []
    sent := s.sent ++ splitBatches (s.pending ++ events) }

theorem splitBatches_flatten (l : List AizuEvent) :
    (splitBatches l).flatten = l := by
  induction l using splitBatches.induct with
  | case1 => simp [splitBatches]
  | case2 e rest ih =>
    rw [splitBatches]
    simp only [List.flatten_cons, ih, List.take_append_drop]

theorem splitBatches_chunk_le (l : List AizuEvent) :
    ∀ b ∈ splitBatches l, b.length ≤ batchCap := by
  induction l using splitBatches.induct with
  | case1 => simp [splitBatches]
  | case2 e rest ih =>
    rw [splitBatches]
    intro b hb
    rcases List.mem_cons.1 hb with hb | hb
    · subst hb
      exact List.length_take_le batchCap (e :: rest)
    · exact ih b hb

theorem splitBatches_small (l : List AizuEvent) (hne : l ≠ [])
    (hle : l.length ≤ batchCap) : splitBatches l = [l] := by
  cases l with
  | nil => exact absurd rfl hne
  | cons e rest =>
    rw [splitBatches, List.take_of_length_le hle,
      List.drop_eq_nil_of_le hle, splitBatches]

/-- C3: flush splits the queue into consecutive sub-batches of at most
1000 events each, preserving insertion order within and across
sub-batches (the concatenation of the sub-batches is the original queue);
`trackBatch` with 1001 pre-built events on an empty queue issues exactly 2
network calls whose concatenated bodies are the original events in their
original relative order. -/
theorem flush_splits_queue (l : List AizuEvent) :
    (∀ b ∈ splitBatches l, b.length ≤ 1000) ∧
    (splitBatches l).flatten = l ∧
    (l.length = 1001 →
      (trackBatch l initQueue).sent.length = 2 ∧
      (trackBatch l initQueue).sent.flatten = l) := by
  refine ⟨splitBatches_chunk_le l, splitBatches_flatten l, ?_⟩
  intro hlen
  have hne : l ≠ [] := by
    intro h
    rw [h] at hlen
    simp at hlen
  have hstep : splitBatches l = l.take batchCap :: splitBatches (l.drop batchCap) := by
    cases l with
    | nil => exact absurd rfl hne
    | cons e rest => rw [splitBatches]
  have hdlen : (l.drop batchCap).length = 1 := by
    simp only [List.length_drop, hlen, batchCap]
  have hdne : l.drop batchCap ≠ [] := by
    intro h
    rw [h] at hdlen
    simp at hdlen
  have hsmall : splitBatches (l.drop batchCap) = [l.drop batchCap] :=
    splitBatches_small _ hdne (by rw [hdlen]; simp [batchCap])
  constructor
  · simp [trackBatch, initQueue, hstep, hsmall]
  · simp only [trackBatch, initQueue, List.nil_append]
    exact splitBatches_flatten l

theorem flush_splits_queue_witness :
    (trackBatch (List.replicate 1001
        (mkCustomEvent "pk_test_123456789" "e" "https://example.com"
          "test_anon" "test_session" [])) initQueue).sent.length = 2 :=
  ((flush_splits_queue _).2.2 (List.length_replicate 1001 _)).1

/-- C4: with batching enabled and `batchSize = 3`, two `track()` calls on
a fresh pipeline leave `getBatchSize()` at 2 with no network call issued;
the third `track()` call issues exactly one network call and leaves
`getBatchSize()` at 0. -/
theorem batch_threshold (a1 n1 u1 i1 s1 a2 n2 u2 i2 s2 a3 n3 u3 i3 s3 : String)
    (r1 r2 r3 : List (String × PropValue)) :
    getBatchSize (track 3 a2 n2 u2 i2 s2 r2
        (track 3 a1 n1 u1 i1 s1 r1 initQueue)) = 2 ∧
    (track 3 a2 n2 u2 i2 s2 r2
        (track 3 a1 n1 u1 i1 s1 r1 initQueue)).sent.length = 0 ∧
    getBatchSize (track 3 a3 n3 u3 i3 s3 r3 (track 3 a2 n2 u2 i2 s2 r2
        (track 3 a1 n1 u1 i1 s1 r1 initQueue))) = 0 ∧
    (track 3 a3 n3 u3 i3 s3 r3 (track 3 a2 n2 u2 i2 s2 r2
        (track 3 a1 n1 u1 i1 s1 r1 initQueue))).sent.length = 1 := by
  refine ⟨?_, ?_, ?_, ?_⟩ <;>
    simp [track, enqueue, initQueue, getBatchSize]

/-! ## Pageview de-duplication (Pipeline Facade) -/

/-- Modelled from the spec: the de-duplication window of 3 seconds, in
milliseconds of the clock source. -/
def dedupWindowMs : Nat := 3000

/-- Modelled from the spec: the facade tracks a per-URL last-accepted
timestamp (an association list keyed by resolved URL, most recent first)
and counts the network calls issued for accepted pageviews. -/
structure PageviewState where
  lastView : List (String × Nat)
  calls : Nat
deriving DecidableEq, Repr

/-- Modelled from the spec: the facade state of a fresh pipeline: no URL
has an accepted pageview yet and no network call has occurred. -/
def initPageviews : PageviewState := ⟨[], 0⟩

/-- Modelled from the spec: `pageview()` for a resolved URL at clock time
`now` is suppressed (no enqueue, no network call, state unchanged) when
the prior accepted pageview for that URL lies within 3 seconds; otherwise
it is accepted: the per-URL timestamp is updated and one network call is
issued (batching disabled, as in the tests, so an accepted pageview sends
immediately). -/
def pageview (url : String) (now : Nat) (s : PageviewState) :
    PageviewState :=
  match List.lookup url s.lastView with
  | some t =>
    if now - t < dedupWindowMs then s
    else { lastView := (url, now) :: s.lastView, calls := s.calls + 1 }
  | none => { lastView := (url, now) :: s.lastView, calls := s.calls + 1 }

/-- C5: a `pageview()` for a URL whose prior accepted pageview lies within
3 seconds of `now` (per the clock source) is suppressed — the state is
unchanged, so nothing is enqueued and no network call occurs; a
`pageview()` for that URL at or after the end of the 3-second window is
accepted and issues exactly one new network call, recording `now` as the
last-accepted time for the URL. -/
theorem pageview_dedup (url : String) (now t : Nat) (s : PageviewState)
    (hlast : List.lookup url s.lastView = some t) :
    (now - t < dedupWindowMs → pageview url now s = s) ∧
    (dedupWindowMs ≤ now - t →
      (pageview url now s).calls = s.calls + 1 ∧
      List.lookup url (pageview url now s).lastView = some now) := by
  constructor
  · intro hlt
    simp [pageview, hlast, hlt]
  · intro hge
    have hnot : ¬ now - t < dedupWindowMs := Nat.not_lt.mpr hge
    refine ⟨by simp [pageview, hlast, hnot], ?_⟩
    simp [pageview, hlast, hnot, List.lookup]

theorem pageview_dedup_witness :
    pageview "https://example.com/page" 1002000
        (pageview "https://example.com/page" 1000000 initPageviews) =
      pageview "https://example.com/page" 1000000 initPageviews ∧
    (pageview "https://example.com/page" 1004000
        (pageview "https://example.com/page" 1002000
          (pageview "https://example.com/page" 1000000 initPageviews))).calls
      = 2 := by
  have h1 : pageview "https://example.com/page" 1000000 initPageviews =
      ⟨[("https://example.com/page", 1000000)], 1⟩ := by
    simp [pageview, initPageviews, List.lookup]
  have hsup := (pageview_dedup "https://example.com/page" 1002000 1000000
      (pageview "https://example.com/page" 1000000 initPageviews)
      (by rw [h1]; simp [List.lookup])).1 (by norm_num [dedupWindowMs])
  have hacc := (pageview_dedup "https://example.com/page" 1004000 1000000
      (pageview "https://example.com/page" 1002000
        (pageview "https://example.com/page" 1000000 initPageviews))
      (by rw [hsup, h1]; simp [List.lookup])).2 (by norm_num [dedupWindowMs])
  refine ⟨hsup, ?_⟩
  rw [hacc.1, hsup, h1]

/-! ## Identity Store -/

/-- Modelled from the spec: id generation. Ids have the format
`<prefix><random>` with prefix `s_` for sessions and `a_` for anonymous
ids. The random source is modelled as a nonce drawn from a strictly
increasing counter; that a fresh draw never repeats an earlier id is
modelled by making the suffix injective in the nonce (a suffix of `n`
characters). -/
def mkId (p : String) (n : Nat) : String :=
  p ++ String.mk (List.replicate n 'x')

/-- Modelled from the spec: the Identity Store owns the anonymous id and
the session id, together with the nonce counter of the random source. -/
structure IdentState where
  ctr : Nat
  sessionId : String
  anonymousId : String
deriving DecidableEq, Repr

/-- Modelled from the spec: both stored ids were generated by earlier
draws of the random source, i.e. with nonces below the current counter. -/
def wellFormedIds (s : IdentState) : Prop :=
  (∃ k, k < s.ctr ∧ s.sessionId = mkId "s_" k) ∧
  (∃ k, k < s.ctr ∧ s.anonymousId = mkId "a_" k)

/-- Modelled from the spec: `getSessionId()` (expiry is not at issue in
the claims checked here, so the sliding-expiry branch is not modelled). -/
def getSessionId (s : IdentState) : String := s.sessionId

/-- Modelled from the spec: `getAnonymousId()`. -/
def getAnonymousId (s : IdentState) : String := s.anonymousId

/-- Modelled from the spec: `resetSession()` forces a new session id
regardless of expiry state, drawing a fresh nonce. -/
def resetSession (s : IdentState) : IdentState :=
  { ctr := s.ctr + 1, sessionId := mkId "s_" s.ctr,
    anonymousId := s.anonymousId }

/-- Modelled from the spec: `resetAnonymousId()` generates a new
anonymous id, persists it and returns it. -/
def resetAnonymousId (s : IdentState) : IdentState :=
  { ctr := s.ctr + 1, sessionId := s.sessionId,
    anonymousId := mkId "a_" s.ctr }

theorem mkId_length (p : String) (n : Nat) :
    (mkId p n).length = p.length + n := by
  show (p.data ++ List.replicate n 'x').length = p.data.length + n
  rw [List.length_append, List.length_replicate]

theorem mkId_inj (p : String) (n m : Nat) (h : mkId p n = mkId p m) :
    n = m := by
  have := congrArg String.length h
  rw [mkId_length, mkId_length] at this
  omega

/-- C9: on every well-formed identity state, `resetSession()` and
`resetAnonymousId()` each install a freshly generated id that is distinct
from the id held before the call and has the correct format (the new
session id extends the prefix `s_`, the new anonymous id the prefix
`a_`), and the subsequent `getSessionId()` / `getAnonymousId()` return
exactly that new id. -/
theorem reset_ids_fresh (s : IdentState) (h : wellFormedIds s) :
    (getSessionId (resetSession s) ≠ getSessionId s ∧
      (∃ suffix, getSessionId (resetSession s) = "s_" ++ suffix) ∧
      getSessionId (resetSession s) = mkId "s_" s.ctr) ∧
    (getAnonymousId (resetAnonymousId s) ≠ getAnonymousId s ∧
      (∃ suffix, getAnonymousId (resetAnonymousId s) = "a_" ++ suffix) ∧
      getAnonymousId (resetAnonymousId s) = mkId "a_" s.ctr) := by
  obtain ⟨⟨k, hk, hks⟩, ⟨j, hj, hja⟩⟩ := h
  constructor
  · refine ⟨?_, ⟨String.mk (List.replicate s.ctr 'x'), rfl⟩, rfl⟩
    show mkId "s_" s.ctr ≠ s.sessionId
    rw [hks]
    intro heq
    have := mkId_inj "s_" s.ctr k heq
    omega
  · refine ⟨?_, ⟨String.mk (List.replicate s.ctr 'x'), rfl⟩, rfl⟩
    show mkId "a_" s.ctr ≠ s.anonymousId
    rw [hja]
    intro heq
    have := mkId_inj "a_" s.ctr j heq
    omega

theorem reset_ids_fresh_witness :
    getSessionId (resetSession ⟨2, mkId "s_" 0, mkId "a_" 1⟩) ≠
      getSessionId ⟨2, mkId "s_" 0, mkId "a_" 1⟩ ∧
    getAnonymousId (resetAnonymousId ⟨2, mkId "s_" 0, mkId "a_" 1⟩) ≠
      getAnonymousId ⟨2, mkId "s_" 0, mkId "a_" 1⟩ :=
  ⟨(reset_ids_fresh ⟨2, mkId "s_" 0, mkId "a_" 1⟩
      ⟨⟨0, by decide, rfl⟩, ⟨1, by decide, rfl⟩⟩).1.1,
   (reset_ids_fresh ⟨2, mkId "s_" 0, mkId "a_" 1⟩
      ⟨⟨0, by decide, rfl⟩, ⟨1, by decide, rfl⟩⟩).2.1⟩

/-! ## Initialization -/

/-- Modelled from the spec: the facade's `init()` state — whether the
pipeline is already initialized and how many settings GET requests have
been issued. -/
structure InitState where
  initDone : Bool
  settingsFetches : Nat
deriving DecidableEq, Repr

/-- Modelled from the spec: the state right after construction: not yet
initialized, no settings request issued. -/
def freshInit : InitState := ⟨false, 0⟩

/-- Modelled from the spec: `init()` is idempotent — while already
initialized it performs no additional network or state work; otherwise it
fires one best-effort settings GET whose success or failure (`fetchOk`) is
fully swallowed: the call is a total function (it always resolves) and the
resulting state does not depend on the fetch outcome. -/
def initCall (_fetchOk : Bool) (s : InitState) : InitState :=
  if s.initDone then s
  else { initDone := true, settingsFetches := s.settingsFetches + 1 }

/-- C8: `init()` is idempotent: a second `init()` while already
initialized performs no network or state work at all (the state is
unchanged), so two `init()` calls from a fresh pipeline issue the settings
GET exactly once — in particular at most once; and a failure of the
settings fetch is fully swallowed: `initCall` is total (the call always
resolves) and a failed fetch leaves the very same state as a successful
one. -/
theorem init_idempotent (b : Bool) (s : InitState)
    (h : s.initDone = true) :
    initCall b s = s ∧
    (∀ b1 b2 : Bool,
      (initCall b2 (initCall b1 freshInit)).settingsFetches = 1) ∧
    (∀ b3 : Bool, ∀ s3 : InitState, initCall b3 s3 = initCall true s3) := by
  refine ⟨by simp [initCall, h], ?_, fun b3 s3 => rfl⟩
  intro b1 b2
  simp [initCall, freshInit]

theorem init_idempotent_witness :
    initCall true ⟨true, 1⟩ = (⟨true, 1⟩ : InitState) ∧
    (initCall false (initCall true freshInit)).settingsFetches = 1 :=
  ⟨(init_idempotent true ⟨true, 1⟩ rfl).1,
   (init_idempotent true ⟨true, 1⟩ rfl).2.1 true false⟩

/-! ## Configuration validation -/

/-- Modelled from the spec: the configuration record; optional fields take
the documented defaults. -/
structure AizuConfig where
  apiKey : String
  apiUrl : String
  debug : Bool := false
  sessionTimeout : Nat := 1800000
  batchSize : Nat := 20
  flushInterval : Nat := 1000
  enableBatching : Bool := true
deriving DecidableEq, Repr

/-- Modelled from the spec: the absolute-URL well-formedness check,
modelled as requiring an explicit http/https scheme (the tests accept
`https://us.aizu.io` and reject `not-a-url`). -/
def urlOk (u : String) : Bool :=
  u.startsWith "http://" || u.startsWith "https://"

/-- Modelled from the spec: eager configuration validation at
construction. A thrown constructor error is modelled as `Except.error`
carrying the error message. The message texts follow §8 of the spec and
the test-suite: empty key ⇒ "Aizu API key is required."; a key without the
`pk_` prefix ⇒ the invalid-format error; empty URL ⇒ "Aizu API URL is
required."; a malformed URL ⇒ "Invalid API URL format.". -/
def validateConfig (cfg : AizuConfig) : Except String Unit :=
  if cfg.apiKey = "" then
    Except.error "Aizu API key is required."
  else if ¬ cfg.apiKey.startsWith "pk_" then
    Except.error "Invalid API key format. Publishable keys should start with \"pk_\"."
  else if cfg.apiUrl = "" then
    Except.error "Aizu API URL is required."
  else if ¬ urlOk cfg.apiUrl then
    Except.error "Invalid API URL format."
  else
    Except.ok ()

/-- C7 (counterexample): the claim that an empty `apiKey` yields an error
whose message is exactly "API key is required." is false: at the concrete
configuration with empty key and a valid URL, construction fails with the
message "Aizu API key is required.", which is a different string. -/
theorem empty_key_message_counterexample :
    validateConfig { apiKey := "", apiUrl := "https://us.aizu.io" } =
      Except.error "Aizu API key is required." ∧
    ("Aizu API key is required." : String) ≠ "API key is required." := by
  constructor
  · rfl
  · decide

/-- C7 (amended): for every configuration whose `apiKey` is the empty
string, construction fails synchronously with a configuration error whose
message is exactly "Aizu API key is required.". -/
theorem empty_key_rejected (cfg : AizuConfig) (h : cfg.apiKey = "") :
    validateConfig cfg = Except.error "Aizu API key is required." := by
  simp [validateConfig, h]

theorem empty_key_rejected_witness :
    validateConfig { apiKey := "", apiUrl := "https://us.aizu.io" } =
      Except.error "Aizu API key is required." :=
  empty_key_rejected { apiKey := "", apiUrl := "https://us.aizu.io" } rfl

end Aizu
